import Mathlib

/-!
Shallow embedding of the meteostanice HW backend (`src/server.js`, with the
persistence-variant route from `src/unnamed/part_000` / `part_001`).

Conventions of the embedding:
* JS numbers are modelled as exact rationals (`ℚ`); timestamps (`Date.now()`
  milliseconds) as integers (`ℤ`).
* A JS value that may be absent, `null`, or fail to parse as a finite number
  is modelled by `JSField`; `jsNumber` models JavaScript `Number(x)`
  restricted to its finite results (`none` = NaN / ±Infinity).
* `Math.pow` with the non-integer exponent `GAMMA = 1.2` is transcendental,
  so it is modelled as an explicit function parameter `pow : ℚ → ℚ → ℚ`
  threaded through `estimateSolarInW` and `applyIngest`; theorems that need
  a property of `Math.pow` (only `pow 1 γ = 1`) take it as a hypothesis.
* The ambient clock (`Date.now()`, `nowKey()`) is modelled by explicit
  arguments `now : ℤ` and `dayKey : String`.
* The `Number.isFinite(pin) ? pin : 0` guards at the end of the estimators
  are identities in exact arithmetic and are noted where they occur.
-/

/-- A JS value read from a payload field: missing (`undefined`), `null`,
present but not parsing to a finite number, or parsing to the finite
number `q`. -/
inductive JSField where
  | absent
  | jsnull
  | nonfinite
  | fin (q : ℚ)
deriving DecidableEq

/-- JavaScript `Number(x)`, keeping only finite results:
`Number(undefined) = NaN`, `Number(null) = 0`, non-parsing values give NaN. -/
def jsNumber : JSField → Option ℚ
  | .absent => none
  | .jsnull => some 0
  | .nonfinite => none
  | .fin q => some q

/-- JavaScript `a ?? b` (nullish coalescing): skips `undefined` and `null`. -/
def jsCoalesce (a b : JSField) : JSField :=
  match a with
  | .absent => b
  | .jsnull => b
  | x => x

/-- JavaScript `Math.round` on a finite number (rounds half toward +∞). -/
def jsRound (q : ℚ) : ℤ := ⌊q + 1/2⌋

/-- `src/server.js` lines 15–26: the `VIRTUAL_ENERGY` configuration object. -/
structure VirtualEnergyConfig where
  enabled : Bool
  PANEL_MAX_W : ℚ
  LUX_FULL : ℚ
  GAMMA : ℚ
  LUX_MIN_ON : ℚ
  V_BATT_EST : ℚ
  I_ESP_MA : ℚ
  I_FAN_MAX_MA : ℚ
deriving DecidableEq

/-- The concrete configuration from `src/server.js` lines 15–26. -/
def VIRTUAL_ENERGY : VirtualEnergyConfig :=
  { enabled := true
    PANEL_MAX_W := 3
    LUX_FULL := 30000
    GAMMA := 6/5        -- 1.2
    LUX_MIN_ON := 15
    V_BATT_EST := 37/10 -- 3.7
    I_ESP_MA := 100
    I_FAN_MAX_MA := 200 }

/-- `src/server.js` line 28: `const clamp = (x, a, b) => Math.max(a, Math.min(b, x))`. -/
def clamp (x a b : ℚ) : ℚ := max a (min b x)

/-- `src/server.js` lines 59–66: `estimateSolarInW(lux)`.
The argument is the already-`Number()`-converted illuminance (`none` =
not a finite number).  `pow` models `Math.pow`.  The final
`Number.isFinite(pin) ? pin : 0` guard is an identity in exact arithmetic
because `pow : ℚ → ℚ → ℚ` is total. -/
def estimateSolarInW (pow : ℚ → ℚ → ℚ) (lux : Option ℚ) : ℚ :=
  if !VIRTUAL_ENERGY.enabled then 0
  else
    match lux with
    | none => 0
    | some l =>
      if l < VIRTUAL_ENERGY.LUX_MIN_ON then 0
      else
        let frac := clamp (l / VIRTUAL_ENERGY.LUX_FULL) 0 1
        VIRTUAL_ENERGY.PANEL_MAX_W * pow frac VIRTUAL_ENERGY.GAMMA

/-- `src/server.js` lines 68–78: `estimateLoadW(fanDuty)`.
The argument is the already-`Number()`-converted duty (`none` = not a finite
number, treated as 0).  The final finiteness guard is an identity in exact
arithmetic. -/
def estimateLoadW (fanDuty : Option ℚ) : ℚ :=
  if !VIRTUAL_ENERGY.enabled then 0
  else
    let d := match fanDuty with
      | some q => clamp q 0 255
      | none => 0
    let iEsp := VIRTUAL_ENERGY.I_ESP_MA
    let iFan := VIRTUAL_ENERGY.I_FAN_MAX_MA * (d / 255)
    let iTotalA := (iEsp + iFan) / 1000
    VIRTUAL_ENERGY.V_BATT_EST * iTotalA

/-- `src/server.js` lines 140, 269–281: the `energy.states` pair. -/
structure EnergyStates where
  power_state : String
  power_path_state : String
deriving DecidableEq

/-- `src/server.js` lines 269–281: the power-path classifier inside
`applyIngest`, as a function of the two instantaneous powers. -/
-- The deadband literal `0.05` of the source is written `1/20`.
def classifyPower (pinW poutW : ℚ) : EnergyStates :=
  if (1/20 : ℚ) < pinW ∧ (1/20 : ℚ) < poutW then ⟨"MIXED", "SOLAR_TO_LOAD"⟩
  else if (1/20 : ℚ) < pinW then ⟨"CHARGING", "SOLAR_TO_BATT"⟩
  else if (1/20 : ℚ) < poutW then ⟨"DISCHARGING", "BATT_TO_LOAD"⟩
  else ⟨"IDLE", "UNKNOWN"⟩

/-- `estimateLoadW` with no finite duty is the always-on baseline
`3.7 V * 100 mA = 0.37 W`. -/
theorem estimateLoadW_none : estimateLoadW none = 37/100 := by
  norm_num [estimateLoadW, VIRTUAL_ENERGY]

/-- One stored sample `{ t, v }` (`src/server.js` line 38,
`src/unnamed/part_001` line 148). -/
structure SeriesPoint where
  t : ℤ
  v : ℚ
deriving DecidableEq

/-- `arr.splice(0, arr.length - maxLen)` guarded by `arr.length > maxLen`:
keep only the `maxLen` most recent elements.  This is the trimming step of
`pushSeries` (`src/server.js` line 39), of the `days` cap (line 234), of the
events ring (line 51), and of `clampHistoryLen` (`src/unnamed/part_001`
lines 139–143). -/
def trimOldest {α : Type} (maxLen : ℕ) (l : List α) : List α :=
  if maxLen < l.length then l.drop (l.length - maxLen) else l

/-- `src/server.js` lines 36–40: `pushSeries(arr, v, max = 2000)`.
`v` is `none` when the pushed value is not finite (the `Number.isFinite`
guard); `t` is the ambient clock value `tsNow()`. -/
def pushSeries (maxLen : ℕ) (arr : List SeriesPoint) (t : ℤ) (v : Option ℚ) :
    List SeriesPoint :=
  match v with
  | none => arr
  | some q => trimOldest maxLen (arr ++ [⟨t, q⟩])

/-- `src/unnamed/part_001` lines 139–143: `clampHistoryLen(arr, maxLen)`,
written with the truncated ℕ subtraction `extra = arr.length - maxLen`. -/
def clampHistoryLen {α : Type} (maxLen : ℕ) (l : List α) : List α :=
  let extra := l.length - maxLen
  if 0 < extra then l.drop extra else l

/-- `src/unnamed/part_001` lines 145–151: `appendPoint(dayObj, seriesName, t, v)`
restricted to the named series (series creation is the identity here because
a series is a plain list). -/
def appendPoint (arr : List SeriesPoint) (t : ℤ) (v : Option ℚ) :
    List SeriesPoint :=
  match v with
  | none => arr
  | some q => clampHistoryLen 2000 (arr ++ [⟨t, q⟩])

/-- `src/server.js` line 173 / 243: the `totals` object of a day record. -/
structure Totals where
  energyInWh : ℚ
  energyOutWh : ℚ
  energyNetWh : ℚ
deriving DecidableEq

/-- `src/server.js` lines 166–174 / 236–244: one day record of `memory`. -/
structure DayRecord where
  key : String
  temperature : List SeriesPoint
  light : List SeriesPoint
  brainRisk : List SeriesPoint
  energyIn : List SeriesPoint
  energyOut : List SeriesPoint
  totals : Totals
deriving DecidableEq

/-- A fresh empty day record under `key` (`src/server.js` lines 236–244). -/
def freshDay (key : String) : DayRecord :=
  ⟨key, [], [], [], [], [], ⟨0, 0, 0⟩⟩

/-- `src/server.js` lines 165–176: `state.memory`. -/
structure MemoryBlock where
  today : DayRecord
  days : List DayRecord
deriving DecidableEq

/-- `src/server.js` lines 115–130: `state.world.environment`.  The constant
`scenario`/`stressPattern`/`phase` strings are kept; fields that the program
never reads or writes after initialization are represented as written. -/
structure WorldEnvironment where
  light : Option ℤ
  lightLux : Option ℚ
  lux : Option ℚ
  solarPotentialW : Option ℚ
  boxTempC : Option ℚ
  indoorTempC : Option ℚ
  indoorHumPct : Option ℚ
  outdoorTempC : Option ℚ
  airTempC : Option ℚ
  scenario : String
  stressPattern : String
  phase : String
deriving DecidableEq

/-- `src/server.js` lines 113 / 131: a `{ now, isDay }` time block. -/
structure TimeBlock where
  now : ℤ
  isDay : Bool
deriving DecidableEq

/-- `src/server.js` lines 136–137: one `ina_*` block (the `voltageV`,
`currentA`, `signal_quality` fields stay `null` forever and are omitted). -/
structure InaBlock where
  p_raw : ℚ
  p_ema : ℚ
deriving DecidableEq

/-- `src/server.js` line 138: `state.energy.totals`. -/
structure EnergyTotalsBlock where
  wh_in_today : ℚ
  wh_out_today : ℚ
  wh_net_today : ℚ
deriving DecidableEq

/-- `src/server.js` lines 135–142: `state.energy` (`rolling24h` and
`deadbandW` stay `null` forever and are omitted). -/
structure EnergyBlock where
  ina_in : InaBlock
  ina_out : InaBlock
  totals : EnergyTotalsBlock
  states : EnergyStates
deriving DecidableEq

/-- `src/server.js` lines 149–153: `state.device.sensors`. -/
structure SensorsBlock where
  dht22TempC : Option ℚ
  dht22Humidity : Option ℚ
  ds18b20TempC : Option ℚ
  bh1750Lux : Option ℚ
deriving DecidableEq

/-- `src/server.js` lines 155–160: `state.device.power`. -/
structure PowerBlock where
  solarInW : ℚ
  loadW : ℚ
  balanceWh : ℚ
  collectionIntervalSec : ℚ
deriving DecidableEq

/-- `src/server.js` lines 144–163: `state.device` (`battery`, `config`,
`identity` are never written after initialization and are omitted). -/
structure DeviceBlock where
  temperature : Option ℚ
  humidity : Option ℚ
  light : Option ℤ
  fan : Bool
  sensors : SensorsBlock
  power : PowerBlock
deriving DecidableEq

/-- `src/server.js` lines 43–50: one audit event (the constant
`action: "INGEST"` field is omitted; `meta` is summarized as a string). -/
structure EventEntry where
  ts : ℤ
  key : String
  level : String
  message : String
deriving DecidableEq

/-- `src/server.js` line 179: `state.brain`. -/
structure BrainBlock where
  mode : String
  messageText : String
deriving DecidableEq

/-- `src/server.js` lines 112–180 plus the module-level `lastEnergyTs`
(line 80): the whole mutable server state.  `world.cycle` is never touched
after initialization and is omitted. -/
structure ServerState where
  time : TimeBlock
  worldEnvironment : WorldEnvironment
  worldTime : TimeBlock
  energy : EnergyBlock
  device : DeviceBlock
  memory : MemoryBlock
  events : List EventEntry
  brain : BrainBlock
  lastEnergyTs : ℤ
deriving DecidableEq

/-- The initial state built at module load (`src/server.js` lines 80,
112–180).  `key` models `new Date().toISOString().slice(0, 10)` and `t0`
models the `Date.now()` calls during initialization. -/
def initialState (key : String) (t0 : ℤ) : ServerState :=
  { time := ⟨t0, true⟩
    worldEnvironment :=
      ⟨none, none, none, none, none, none, none, none, none, "HW", "HW", "HW"⟩
    worldTime := ⟨t0, true⟩
    energy :=
      { ina_in := ⟨0, 0⟩
        ina_out := ⟨0, 0⟩
        totals := ⟨0, 0, 0⟩
        states := ⟨"IDLE", "UNKNOWN"⟩ }
    device :=
      { temperature := none
        humidity := none
        light := none
        fan := false
        sensors := ⟨none, none, none, none⟩
        power := ⟨0, 0, 0, 10⟩ }
    memory := ⟨freshDay key, []⟩
    events := []
    brain := ⟨"HW", "HW režim: sběr z ESP32"⟩
    lastEnergyTs := t0 }

/-- `src/server.js` lines 85–105: `integrateEnergy(pinW, poutW, nowTs)`.
Reads and writes `lastEnergyTs`, the `today` totals, `energy.totals` and
`device.power.balanceWh`. -/
def integrateEnergy (pinW poutW : ℚ) (nowTs : ℤ) (s : ServerState) :
    ServerState :=
  let dtMs : ℤ := max 0 (nowTs - s.lastEnergyTs)
  let dtClampedMs : ℤ := min dtMs 60000
  let dtH : ℚ := (dtClampedMs : ℚ) / 3600000
  let inWh := pinW * dtH
  let outWh := poutW * dtH
  let newIn := s.memory.today.totals.energyInWh + inWh
  let newOut := s.memory.today.totals.energyOutWh + outWh
  let newNet := newIn - newOut
  { s with
    lastEnergyTs := nowTs
    memory :=
      { s.memory with
        today := { s.memory.today with totals := ⟨newIn, newOut, newNet⟩ } }
    energy := { s.energy with totals := ⟨newIn, newOut, newNet⟩ }
    device :=
      { s.device with power := { s.device.power with balanceWh := newNet } } }

/-- The `fan` part of an ingest payload (`src/server.js` line 188). -/
structure FanPayload where
  duty : JSField
deriving DecidableEq

/-- The `env` part of an ingest payload (`src/server.js` lines 186–193,
216).  `isNight` models the truthiness of `env.isNight`. -/
structure EnvPayload where
  boxTempC : JSField
  indoorHumPct : JSField
  outdoorTempC : JSField
  lightLux : JSField
  lux : JSField
  light : JSField
  isNight : Bool
deriving DecidableEq

/-- An object ingest payload as read by `applyIngest`
(`payload?.env || {}` and `payload?.fan || {}` mean a payload whose `env`
or `fan` member is missing or not an object behaves as the corresponding
all-absent record). -/
structure Payload where
  env : EnvPayload
  fan : FanPayload
deriving DecidableEq

/-- The all-absent `env` object. -/
def emptyEnv : EnvPayload :=
  ⟨.absent, .absent, .absent, .absent, .absent, .absent, false⟩

/-- The behaviour of `applyIngest({})` — also what any payload without
usable `env`/`fan` members reduces to. -/
def emptyPayload : Payload := ⟨emptyEnv, ⟨.absent⟩⟩

/-- `Number(env.lightLux ?? env.lux ?? env.light)` (`src/server.js`
line 193). -/
def payloadLux (p : Payload) : Option ℚ :=
  jsNumber (jsCoalesce p.env.lightLux (jsCoalesce p.env.lux p.env.light))

/-- `src/server.js` lines 183–229 (without the initial `state.time.now`
write, kept in `applyIngest`): the sticky environment/device/sensor field
updates.  Each field is overwritten only when the freshly parsed value is
finite. -/
def updateSticky (now : ℤ) (p : Payload) (s : ServerState) : ServerState :=
  let duty := jsNumber p.fan.duty
  let boxTempC := jsNumber p.env.boxTempC
  let humPct := jsNumber p.env.indoorHumPct
  let outTempC := jsNumber p.env.outdoorTempC
  let lux := payloadLux p
  -- Each of the guarded assignments of lines 197–229 writes a field that no
  -- other assignment in this block reads or writes, so the sequential
  -- mutations are one simultaneous record update.
  { s with
    worldEnvironment :=
      { s.worldEnvironment with
        boxTempC := match boxTempC with
          | some q => some q
          | none => s.worldEnvironment.boxTempC
        indoorTempC := match boxTempC with
          | some q => some q
          | none => s.worldEnvironment.indoorTempC
        indoorHumPct := match humPct with
          | some q => some q
          | none => s.worldEnvironment.indoorHumPct
        outdoorTempC := match outTempC with
          | some q => some q
          | none => s.worldEnvironment.outdoorTempC
        airTempC := match outTempC with
          | some q => some q
          | none => s.worldEnvironment.airTempC
        light := match lux with
          | some q => some (jsRound q)
          | none => s.worldEnvironment.light
        lightLux := match lux with
          | some q => some q
          | none => s.worldEnvironment.lightLux
        lux := match lux with
          | some q => some q
          | none => s.worldEnvironment.lux
        scenario := "HW"
        stressPattern := "HW"
        phase := if p.env.isNight then "NIGHT" else "DAY" }
    worldTime := ⟨now, !p.env.isNight⟩
    device :=
      { s.device with
        temperature := match boxTempC with
          | some q => some q
          | none => s.device.temperature
        humidity := match humPct with
          | some q => some q
          | none => s.device.humidity
        light := match lux with
          | some q => some (jsRound q)
          | none => s.device.light
        fan := match duty with
          | some q => decide (0 < q)
          | none => s.device.fan
        sensors :=
          { dht22TempC := match boxTempC with
              | some q => some q
              | none => s.device.sensors.dht22TempC
            dht22Humidity := match humPct with
              | some q => some q
              | none => s.device.sensors.dht22Humidity
            ds18b20TempC := match outTempC with
              | some q => some q
              | none => s.device.sensors.ds18b20TempC
            bh1750Lux := match lux with
              | some q => some q
              | none => s.device.sensors.bh1750Lux } } }

/-- `src/server.js` lines 231–250: the day-rollover step of `applyIngest`.
`dayKey` models `nowKey()`. -/
def rolloverStep (now : ℤ) (dayKey : String) (s : ServerState) : ServerState :=
  if s.memory.today.key = dayKey then s
  else
    { s with
      memory :=
        { today := freshDay dayKey
          days := trimOldest 21 (s.memory.days ++ [s.memory.today]) }
      lastEnergyTs := now
      energy := { s.energy with totals := ⟨0, 0, 0⟩ } }

/-- `src/server.js` lines 252–291: sample pushes, estimation, power
classification, energy integration and the brain message. -/
def energyStep (pow : ℚ → ℚ → ℚ) (now : ℤ) (p : Payload) (s : ServerState) :
    ServerState :=
  let boxTempC := jsNumber p.env.boxTempC
  let lux := payloadLux p
  let duty := jsNumber p.fan.duty
  let today1 :=
    { s.memory.today with
      temperature := pushSeries 2000 s.memory.today.temperature now boxTempC
      light := pushSeries 2000 s.memory.today.light now lux }
  let pinW := estimateSolarInW pow lux
  let poutW := estimateLoadW duty
  let today2 :=
    { today1 with
      energyIn := pushSeries 2000 today1.energyIn now (some pinW)
      energyOut := pushSeries 2000 today1.energyOut now (some poutW) }
  let s1 :=
    { s with
      worldEnvironment := { s.worldEnvironment with solarPotentialW := some pinW }
      device :=
        { s.device with
          power := { s.device.power with
            solarInW := pinW, loadW := poutW, collectionIntervalSec := 10 } }
      energy :=
        { s.energy with
          ina_in := ⟨pinW, pinW⟩
          ina_out := ⟨poutW, poutW⟩
          states := classifyPower pinW poutW }
      memory := { s.memory with today := today2 }
      brain :=
        ⟨if p.env.isNight then "NIGHT" else "DAY",
         if p.env.isNight then
           "Noc: běžím úsporně, hlídám teplotu boxu (HW + virtuální energie)"
         else
           "Den: sbírám data, řídím ventilátor (HW + virtuální energie)"⟩ }
  integrateEnergy pinW poutW now s1

/-- `src/server.js` lines 182–292: `applyIngest(payload)`, with the ambient
clock passed explicitly (`now` = `Date.now()`, `dayKey` = `nowKey()`) and
`Math.pow` passed as `pow`. -/
def applyIngest (pow : ℚ → ℚ → ℚ) (now : ℤ) (dayKey : String) (p : Payload)
    (s : ServerState) : ServerState :=
  energyStep pow now p
    (rolloverStep now dayKey
      (updateSticky now p { s with time := { s.time with now := now } }))

/-- `src/server.js` lines 42–52: `logEvent` (the `action: "INGEST"` constant
and the structured `meta` are summarized into the entry). -/
def logEvent (ts : ℤ) (key msg level : String) (events : List EventEntry) :
    List EventEntry :=
  trimOldest 300 (events ++ [⟨ts, key, level, msg⟩])

/-- A request body as seen by the ingest routes after JSON parsing: either
an object payload or a non-object value (`null`, number, string, boolean —
they all behave alike in both route variants). -/
inductive ReqBody where
  | obj (p : Payload)
  | nonObj
deriving DecidableEq

/-- How `applyIngest(req.body || {})` sees a request body: every non-object
body reads as the empty payload (falsy bodies through `|| {}`, truthy
non-objects because `payload?.env`/`payload?.fan` are `undefined`). -/
def toPayload : ReqBody → Payload
  | .obj p => p
  | .nonObj => emptyPayload

/-- An HTTP response summarized by status code and the `ok` flag of the
JSON body. -/
structure IngestResponse where
  status : ℕ
  ok : Bool
deriving DecidableEq

/-- `src/server.js` lines 297–306: the `POST /ingest` handler.  In the
model `applyIngest` is total, so only the success branch of the
`try`/`catch` is reachable. -/
def serverJsIngestRoute (pow : ℚ → ℚ → ℚ) (now : ℤ) (dayKey : String)
    (body : ReqBody) (s : ServerState) : IngestResponse × ServerState :=
  let s1 := applyIngest pow now dayKey (toPayload body) s
  let s2 := { s1 with events := logEvent now "HW" "Ingest OK" "info" s1.events }
  (⟨200, true⟩, s2)

/-- `src/unnamed/part_000` lines 23–27: the in-memory state of the
persistence variant (`latestState`, `latestMeta`).  `bytes` is the byte
length of the serialized payload, supplied by the `byteLen` parameter of
the route. -/
structure PersistState where
  latestState : Option Payload
  receivedAt : Option ℤ
  bytes : ℕ
deriving DecidableEq

/-- `src/unnamed/part_000` lines 92–109 (and identically
`src/unnamed/part_001` lines 380–385): the `POST /ingest` handler of the
persistence variant.  A non-object payload is rejected with HTTP 400 before
any mutation; disk writes have no effect on the in-memory state. -/
def persistIngestRoute (byteLen : Payload → ℕ) (now : ℤ) (body : ReqBody)
    (st : PersistState) : IngestResponse × PersistState :=
  match body with
  | .nonObj => (⟨400, false⟩, st)
  | .obj p =>
    (⟨200, true⟩, { latestState := some p, receivedAt := some now, bytes := byteLen p })

/-- The `n` most recent elements of `l`, in order. -/
def lastN {α : Type} (n : ℕ) (l : List α) : List α := l.drop (l.length - n)

theorem trimOldest_eq_lastN {α : Type} (n : ℕ) (l : List α) :
    trimOldest n l = lastN n l := by
  unfold trimOldest lastN
  split
  · rfl
  · have h : l.length - n = 0 := by omega
    rw [h, List.drop_zero]

theorem clampHistoryLen_eq_trimOldest {α : Type} (n : ℕ) (l : List α) :
    clampHistoryLen n l = trimOldest n l := by
  simp only [clampHistoryLen, trimOldest]
  split_ifs with h1 h2 <;> first | rfl | omega

theorem appendPoint_eq_pushSeries (arr : List SeriesPoint) (t : ℤ)
    (v : Option ℚ) : appendPoint arr t v = pushSeries 2000 arr t v := by
  cases v <;> simp [appendPoint, pushSeries, clampHistoryLen_eq_trimOldest]

theorem length_lastN {α : Type} (n : ℕ) (l : List α) :
    (lastN n l).length = min n l.length := by
  simp only [lastN, List.length_drop]
  omega

theorem lastN_of_length_le {α : Type} (n : ℕ) (l : List α)
    (h : l.length ≤ n) : lastN n l = l := by
  unfold lastN
  have h0 : l.length - n = 0 := by omega
  rw [h0, List.drop_zero]

theorem lastN_eq_reverse_take {α : Type} (n : ℕ) (l : List α) :
    lastN n l = (l.reverse.take n).reverse := by
  rw [lastN, List.take_reverse, List.reverse_reverse]

theorem take_append_take {α : Type} (n : ℕ) (a b : List α) :
    (a ++ b.take n).take n = (a ++ b).take n := by
  rw [List.take_append_eq_append_take, List.take_append_eq_append_take,
    List.take_take]
  congr 2
  omega

theorem lastN_append_lastN {α : Type} (n : ℕ) (xs ys : List α) :
    lastN n (lastN n xs ++ ys) = lastN n (xs ++ ys) := by
  simp only [lastN_eq_reverse_take, List.reverse_append, List.reverse_reverse]
  rw [take_append_take]

/-- All the `pushSeries` appends of a run, oldest first (`vs` pairs the
clock value with the possibly-non-finite pushed value). -/
def pushSeriesAll (maxLen : ℕ) (arr : List SeriesPoint)
    (vs : List (ℤ × Option ℚ)) : List SeriesPoint :=
  vs.foldl (fun a tv => pushSeries maxLen a tv.1 tv.2) arr

/-- The samples that a run of appends actually stores: one `{t, v}` point
per finite value, in order. -/
def finitePoints (vs : List (ℤ × Option ℚ)) : List SeriesPoint :=
  vs.filterMap (fun tv => tv.2.map (fun q => ⟨tv.1, q⟩))

theorem pushSeriesAll_eq_lastN (arr : List SeriesPoint)
    (vs : List (ℤ × Option ℚ)) (h : arr.length ≤ 2000) :
    pushSeriesAll 2000 arr vs = lastN 2000 (arr ++ finitePoints vs) := by
  induction vs generalizing arr with
  | nil =>
    simp only [pushSeriesAll, List.foldl_nil, finitePoints, List.filterMap_nil,
      List.append_nil]
    exact (lastN_of_length_le _ _ h).symm
  | cons tv vs ih =>
    obtain ⟨t, v⟩ := tv
    cases v with
    | none =>
      simpa [pushSeriesAll, pushSeries, finitePoints] using ih arr h
    | some q =>
      have hlen : (pushSeries 2000 arr t (some q)).length ≤ 2000 := by
        simp [pushSeries, trimOldest_eq_lastN, length_lastN]
      have step := ih (pushSeries 2000 arr t (some q)) hlen
      simp only [pushSeriesAll, List.foldl_cons] at step ⊢
      rw [step]
      simp only [pushSeries, trimOldest_eq_lastN, finitePoints,
        List.filterMap_cons, Option.map_some]
      rw [lastN_append_lastN, List.append_assoc]
      rfl

/-- C5: every sample series stays within the fixed bound 2000; a run of
appends keeps exactly the 2000 most recently appended finite values in
chronological order (FIFO eviction of the oldest), and reaches exactly the
bound once at least 2000 finite values are available; the part_001
`appendPoint` behaves identically to `pushSeries` at the same bound. -/
theorem pushSeries_bounded_fifo (arr : List SeriesPoint)
    (vs : List (ℤ × Option ℚ)) (h : arr.length ≤ 2000) :
    (pushSeriesAll 2000 arr vs).length ≤ 2000 ∧
    pushSeriesAll 2000 arr vs = lastN 2000 (arr ++ finitePoints vs) ∧
    (2000 ≤ arr.length + (finitePoints vs).length →
      (pushSeriesAll 2000 arr vs).length = 2000) ∧
    (∀ (a : List SeriesPoint) (t : ℤ) (v : Option ℚ),
      appendPoint a t v = pushSeries 2000 a t v) := by
  have main := pushSeriesAll_eq_lastN arr vs h
  refine ⟨?_, main, ?_, fun a t v => appendPoint_eq_pushSeries a t v⟩
  · rw [main, length_lastN]
    omega
  · intro hge
    rw [main, length_lastN, List.length_append]
    omega

/-- Witness for C5 at a concrete run: start from the empty series, push a
finite, a non-finite and another finite value. -/
theorem pushSeries_bounded_fifo_witness :
    ([] : List SeriesPoint).length ≤ 2000 ∧
    ((pushSeriesAll 2000 [] [(0, some 1), (1, none), (2, some 2)]).length ≤ 2000 ∧
    pushSeriesAll 2000 [] [(0, some 1), (1, none), (2, some 2)] =
      lastN 2000 ([] ++ finitePoints [(0, some 1), (1, none), (2, some 2)]) ∧
    (2000 ≤ ([] : List SeriesPoint).length +
        (finitePoints [(0, some 1), (1, none), (2, some 2)]).length →
      (pushSeriesAll 2000 [] [(0, some 1), (1, none), (2, some 2)]).length = 2000) ∧
    (∀ (a : List SeriesPoint) (t : ℤ) (v : Option ℚ),
      appendPoint a t v = pushSeries 2000 a t v)) :=
  ⟨by simp, pushSeries_bounded_fifo [] [(0, some 1), (1, none), (2, some 2)] (by simp)⟩

/-- The clamped elapsed time of one integrator step, in milliseconds. -/
def clampedDtMs (nowTs lastTs : ℤ) : ℤ := min (max 0 (nowTs - lastTs)) 60000

theorem clampedDtMs_nonneg (nowTs lastTs : ℤ) : 0 ≤ clampedDtMs nowTs lastTs :=
  le_min (le_max_left 0 _) (by norm_num)

theorem clampedDtMs_le (nowTs lastTs : ℤ) : clampedDtMs nowTs lastTs ≤ 60000 :=
  min_le_right _ _

theorem integrateEnergy_totals (pinW poutW : ℚ) (nowTs : ℤ) (s : ServerState) :
    (integrateEnergy pinW poutW nowTs s).memory.today.totals.energyInWh =
      s.memory.today.totals.energyInWh +
        pinW * ((clampedDtMs nowTs s.lastEnergyTs : ℚ) / 3600000) ∧
    (integrateEnergy pinW poutW nowTs s).memory.today.totals.energyOutWh =
      s.memory.today.totals.energyOutWh +
        poutW * ((clampedDtMs nowTs s.lastEnergyTs : ℚ) / 3600000) ∧
    (integrateEnergy pinW poutW nowTs s).memory.today.totals.energyNetWh =
      (integrateEnergy pinW poutW nowTs s).memory.today.totals.energyInWh -
        (integrateEnergy pinW poutW nowTs s).memory.today.totals.energyOutWh ∧
    (integrateEnergy pinW poutW nowTs s).lastEnergyTs = nowTs := by
  refine ⟨?_, ?_, ?_, ?_⟩ <;> simp [integrateEnergy, clampedDtMs]

/-- C3: one integrator step adds at most `p * 60/3600` Wh to each running
total no matter how large the real gap is, never adds a negative amount
(also when `now < lastEnergyTs`), and sets `lastEnergyTs` to `now`
unconditionally. -/
theorem integrateEnergy_clamped_bound (pinW poutW : ℚ) (nowTs : ℤ)
    (s : ServerState) (hin : 0 ≤ pinW) (hout : 0 ≤ poutW) :
    (integrateEnergy pinW poutW nowTs s).memory.today.totals.energyInWh -
        s.memory.today.totals.energyInWh ≤ pinW * (60 / 3600) ∧
    (integrateEnergy pinW poutW nowTs s).memory.today.totals.energyOutWh -
        s.memory.today.totals.energyOutWh ≤ poutW * (60 / 3600) ∧
    0 ≤ (integrateEnergy pinW poutW nowTs s).memory.today.totals.energyInWh -
        s.memory.today.totals.energyInWh ∧
    0 ≤ (integrateEnergy pinW poutW nowTs s).memory.today.totals.energyOutWh -
        s.memory.today.totals.energyOutWh ∧
    (integrateEnergy pinW poutW nowTs s).lastEnergyTs = nowTs := by
  obtain ⟨hIn, hOut, -, hTs⟩ := integrateEnergy_totals pinW poutW nowTs s
  have h0 : (0 : ℚ) ≤ (clampedDtMs nowTs s.lastEnergyTs : ℚ) := by
    exact_mod_cast clampedDtMs_nonneg nowTs s.lastEnergyTs
  have h6 : (clampedDtMs nowTs s.lastEnergyTs : ℚ) ≤ 60000 := by
    exact_mod_cast clampedDtMs_le nowTs s.lastEnergyTs
  have hdt0 : (0 : ℚ) ≤ (clampedDtMs nowTs s.lastEnergyTs : ℚ) / 3600000 := by
    positivity
  have hdt : (clampedDtMs nowTs s.lastEnergyTs : ℚ) / 3600000 ≤ 60 / 3600 := by
    rw [div_le_div_iff₀ (by norm_num) (by norm_num)]
    linarith
  refine ⟨?_, ?_, ?_, ?_, hTs⟩
  · rw [hIn]
    have := mul_le_mul_of_nonneg_left hdt hin
    linarith
  · rw [hOut]
    have := mul_le_mul_of_nonneg_left hdt hout
    linarith
  · rw [hIn]
    have := mul_nonneg hin hdt0
    linarith
  · rw [hOut]
    have := mul_nonneg hout hdt0
    linarith

/-- Witness for C3 at a concrete step: powers 1 W and 2 W, a 10-day gap
(`now = 864000000`, `lastEnergyTs = 0` in the fresh state). -/
theorem integrateEnergy_clamped_bound_witness :
    (0 : ℚ) ≤ 1 ∧ (0 : ℚ) ≤ 2 ∧
    ((integrateEnergy 1 2 864000000 (initialState "2025-01-01" 0)).memory.today.totals.energyInWh -
        (initialState "2025-01-01" 0).memory.today.totals.energyInWh ≤ 1 * (60 / 3600) ∧
    (integrateEnergy 1 2 864000000 (initialState "2025-01-01" 0)).memory.today.totals.energyOutWh -
        (initialState "2025-01-01" 0).memory.today.totals.energyOutWh ≤ 2 * (60 / 3600) ∧
    0 ≤ (integrateEnergy 1 2 864000000 (initialState "2025-01-01" 0)).memory.today.totals.energyInWh -
        (initialState "2025-01-01" 0).memory.today.totals.energyInWh ∧
    0 ≤ (integrateEnergy 1 2 864000000 (initialState "2025-01-01" 0)).memory.today.totals.energyOutWh -
        (initialState "2025-01-01" 0).memory.today.totals.energyOutWh ∧
    (integrateEnergy 1 2 864000000 (initialState "2025-01-01" 0)).lastEnergyTs = 864000000) :=
  ⟨by norm_num, by norm_num,
    integrateEnergy_clamped_bound 1 2 864000000 (initialState "2025-01-01" 0)
      (by norm_num) (by norm_num)⟩

/-- C7: a second integrator call with the same timestamp as the immediately
preceding call adds exactly zero additional Wh to `energyInWh`,
`energyOutWh` and `energyNetWh`. -/
theorem integrateEnergy_idempotent_same_ts (pinW poutW : ℚ) (nowTs : ℤ)
    (s : ServerState) :
    (integrateEnergy pinW poutW nowTs
        (integrateEnergy pinW poutW nowTs s)).memory.today.totals =
      (integrateEnergy pinW poutW nowTs s).memory.today.totals ∧
    (integrateEnergy pinW poutW nowTs
        (integrateEnergy pinW poutW nowTs s)).energy.totals =
      (integrateEnergy pinW poutW nowTs s).energy.totals ∧
    (integrateEnergy pinW poutW nowTs
        (integrateEnergy pinW poutW nowTs s)).device.power.balanceWh =
      (integrateEnergy pinW poutW nowTs s).device.power.balanceWh := by
  refine ⟨?_, ?_, ?_⟩ <;> simp [integrateEnergy]

/-- C6: the input-power estimator returns exactly 0 for a non-finite
illuminance and for any non-negative illuminance strictly below the noise
floor `LUX_MIN_ON`, and returns exactly `PANEL_MAX_W` at the full-scale
illuminance `LUX_FULL` (fraction = 1 and `pow 1 GAMMA = 1`). -/
theorem estimateSolarInW_floor_and_fullscale (pow : ℚ → ℚ → ℚ)
    (hpow : pow 1 VIRTUAL_ENERGY.GAMMA = 1) :
    estimateSolarInW pow none = 0 ∧
    (∀ l : ℚ, 0 ≤ l → l < VIRTUAL_ENERGY.LUX_MIN_ON →
      estimateSolarInW pow (some l) = 0) ∧
    estimateSolarInW pow (some VIRTUAL_ENERGY.LUX_FULL) =
      VIRTUAL_ENERGY.PANEL_MAX_W := by
  refine ⟨rfl, ?_, ?_⟩
  · intro l h0 hl
    simp [estimateSolarInW, hl]
  · norm_num [VIRTUAL_ENERGY] at hpow
    have hc : clamp (1 : ℚ) 0 1 = 1 := by
      norm_num [clamp, min_def, max_def]
    simp only [estimateSolarInW, VIRTUAL_ENERGY, Bool.not_true, Bool.false_eq_true,
      if_false]
    norm_num [hc, hpow]

/-- Witness for C6 with the concrete `pow` function `fun b e => b`
(which satisfies `pow 1 GAMMA = 1` like `Math.pow` does). -/
theorem estimateSolarInW_floor_and_fullscale_witness :
    (fun (b : ℚ) (_ : ℚ) => b) 1 VIRTUAL_ENERGY.GAMMA = 1 ∧
    (0 : ℚ) ≤ 0 ∧ (0 : ℚ) < VIRTUAL_ENERGY.LUX_MIN_ON ∧
    estimateSolarInW (fun b _ => b) none = 0 ∧
    estimateSolarInW (fun b _ => b) (some 0) = 0 ∧
    estimateSolarInW (fun b _ => b) (some VIRTUAL_ENERGY.LUX_FULL) =
      VIRTUAL_ENERGY.PANEL_MAX_W :=
  ⟨rfl, le_refl 0, by norm_num [VIRTUAL_ENERGY],
    (estimateSolarInW_floor_and_fullscale (fun b _ => b) rfl).1,
    (estimateSolarInW_floor_and_fullscale (fun b _ => b) rfl).2.1 0 (le_refl 0)
      (by norm_num [VIRTUAL_ENERGY]),
    (estimateSolarInW_floor_and_fullscale (fun b _ => b) rfl).2.2⟩

/-- The `energy.states` pair written by an ingest is exactly the classifier
applied to the two freshly estimated powers (`src/server.js` lines 255–256,
269–281; the later `integrateEnergy` call does not touch `states`). -/
theorem applyIngest_states (pow : ℚ → ℚ → ℚ) (now : ℤ) (dayKey : String)
    (p : Payload) (s : ServerState) :
    (applyIngest pow now dayKey p s).energy.states =
      classifyPower (estimateSolarInW pow (payloadLux p))
        (estimateLoadW (jsNumber p.fan.duty)) := by
  simp [applyIngest, energyStep, integrateEnergy]

/-- C1 counterexample: the claim's table names the path states
`SOLAR_TO_BATTERY` and `BATTERY_TO_LOAD`, but the classifier stores the
strings `SOLAR_TO_BATT` and `BATT_TO_LOAD`. -/
theorem classifyPower_path_names_counterexample :
    (classifyPower 1 0).power_state = "CHARGING" ∧
    (classifyPower 1 0).power_path_state = "SOLAR_TO_BATT" ∧
    (classifyPower 1 0).power_path_state ≠ "SOLAR_TO_BATTERY" ∧
    (classifyPower 0 1).power_state = "DISCHARGING" ∧
    (classifyPower 0 1).power_path_state = "BATT_TO_LOAD" ∧
    (classifyPower 0 1).power_path_state ≠ "BATTERY_TO_LOAD" := by
  have e1 : classifyPower 1 0 = ⟨"CHARGING", "SOLAR_TO_BATT"⟩ := by
    norm_num [classifyPower]
  have e2 : classifyPower 0 1 = ⟨"DISCHARGING", "BATT_TO_LOAD"⟩ := by
    norm_num [classifyPower]
  exact ⟨by rw [e1], by rw [e1], by rw [e1]; decide,
    by rw [e2], by rw [e2], by rw [e2]; decide⟩

/-- C1 (amended): the classifier, applied after every ingest to the two
instantaneous powers with deadband 0.05 W, realizes the spec's table with
the code's path-state strings `SOLAR_TO_BATT` and `BATT_TO_LOAD` in place
of the spec's `SOLAR_TO_BATTERY` and `BATTERY_TO_LOAD`. -/
theorem classifyPower_table (pinW poutW : ℚ) (pow : ℚ → ℚ → ℚ) (now : ℤ)
    (dayKey : String) (p : Payload) (s : ServerState) :
    ((1/20 : ℚ) < pinW → (1/20 : ℚ) < poutW →
      classifyPower pinW poutW = ⟨"MIXED", "SOLAR_TO_LOAD"⟩) ∧
    ((1/20 : ℚ) < pinW → poutW ≤ 1/20 →
      classifyPower pinW poutW = ⟨"CHARGING", "SOLAR_TO_BATT"⟩) ∧
    (pinW ≤ 1/20 → (1/20 : ℚ) < poutW →
      classifyPower pinW poutW = ⟨"DISCHARGING", "BATT_TO_LOAD"⟩) ∧
    (pinW ≤ 1/20 → poutW ≤ 1/20 →
      classifyPower pinW poutW = ⟨"IDLE", "UNKNOWN"⟩) ∧
    (applyIngest pow now dayKey p s).energy.states =
      classifyPower (estimateSolarInW pow (payloadLux p))
        (estimateLoadW (jsNumber p.fan.duty)) := by
  refine ⟨?_, ?_, ?_, ?_, applyIngest_states pow now dayKey p s⟩ <;> intro h1 h2
  · rw [classifyPower, if_pos ⟨h1, h2⟩]
  · rw [classifyPower, if_neg (by rintro ⟨hx, hy⟩; linarith), if_pos h1]
  · rw [classifyPower, if_neg (by rintro ⟨hx, hy⟩; linarith),
      if_neg (by linarith), if_pos h2]
  · rw [classifyPower, if_neg (by rintro ⟨hx, hy⟩; linarith),
      if_neg (by linarith), if_neg (by linarith)]

/-- Witness for C1 (amended): all four table cells evaluated at concrete
power pairs on either side of the 0.05 W deadband. -/
theorem classifyPower_table_witness :
    classifyPower 1 1 = ⟨"MIXED", "SOLAR_TO_LOAD"⟩ ∧
    classifyPower 1 0 = ⟨"CHARGING", "SOLAR_TO_BATT"⟩ ∧
    classifyPower 0 1 = ⟨"DISCHARGING", "BATT_TO_LOAD"⟩ ∧
    classifyPower 0 0 = ⟨"IDLE", "UNKNOWN"⟩ :=
  ⟨(classifyPower_table 1 1 (fun b _ => b) 0 "2025-01-01" emptyPayload
      (initialState "2025-01-01" 0)).1 (by norm_num) (by norm_num),
   (classifyPower_table 1 0 (fun b _ => b) 0 "2025-01-01" emptyPayload
      (initialState "2025-01-01" 0)).2.1 (by norm_num) (by norm_num),
   (classifyPower_table 0 1 (fun b _ => b) 0 "2025-01-01" emptyPayload
      (initialState "2025-01-01" 0)).2.2.1 (by norm_num) (by norm_num),
   (classifyPower_table 0 0 (fun b _ => b) 0 "2025-01-01" emptyPayload
      (initialState "2025-01-01" 0)).2.2.2.1 (by norm_num) (by norm_num)⟩

theorem estimateLoadW_lower (d : Option ℚ) : 37/100 ≤ estimateLoadW d := by
  cases d with
  | none => rw [estimateLoadW_none]
  | some q =>
    have h0 : (0 : ℚ) ≤ clamp q 0 255 := le_max_left 0 _
    simp only [estimateLoadW, VIRTUAL_ENERGY, Bool.not_true, Bool.false_eq_true,
      if_false]
    linarith

theorem estimateLoadW_upper (d : Option ℚ) : estimateLoadW d ≤ 111/100 := by
  cases d with
  | none => rw [estimateLoadW_none]; norm_num
  | some q =>
    have h1 : clamp q 0 255 ≤ 255 :=
      max_le (by norm_num) (min_le_left 255 q)
    simp only [estimateLoadW, VIRTUAL_ENERGY, Bool.not_true, Bool.false_eq_true,
      if_false]
    linarith

theorem classifyPower_of_pout_over (pinW poutW : ℚ) (h : (1/20 : ℚ) < poutW) :
    (classifyPower pinW poutW).power_state = "MIXED" ∨
    (classifyPower pinW poutW).power_state = "DISCHARGING" := by
  rw [classifyPower]
  split_ifs with ha hb
  · exact Or.inl rfl
  · exact absurd ⟨hb, h⟩ ha
  · exact Or.inr rfl

/-- C10: the output-power estimator is bounded between the always-on
baseline `3.7 * 0.1 = 0.37 W` and `3.7 * 0.3 = 1.11 W` for every duty
input including non-finite ones, and since 0.37 W is above the 0.05 W
deadband, every ingest leaves `power_state` at `MIXED` or `DISCHARGING` —
the `CHARGING` and `IDLE` branches of the classifier are unreachable. -/
theorem estimateLoadW_bounds_no_idle (d : Option ℚ) (pow : ℚ → ℚ → ℚ)
    (now : ℤ) (dayKey : String) (p : Payload) (s : ServerState) :
    (37/100 ≤ estimateLoadW d ∧ estimateLoadW d ≤ 111/100) ∧
    ((applyIngest pow now dayKey p s).energy.states.power_state = "MIXED" ∨
     (applyIngest pow now dayKey p s).energy.states.power_state = "DISCHARGING") := by
  refine ⟨⟨estimateLoadW_lower d, estimateLoadW_upper d⟩, ?_⟩
  rw [applyIngest_states]
  exact classifyPower_of_pout_over _ _
    (lt_of_lt_of_le (by norm_num) (estimateLoadW_lower (jsNumber p.fan.duty)))

theorem updateSticky_memory (now : ℤ) (p : Payload) (s : ServerState) :
    (updateSticky now p s).memory = s.memory := rfl

theorem updateSticky_lastEnergyTs (now : ℤ) (p : Payload) (s : ServerState) :
    (updateSticky now p s).lastEnergyTs = s.lastEnergyTs := rfl

theorem updateSticky_energy (now : ℤ) (p : Payload) (s : ServerState) :
    (updateSticky now p s).energy = s.energy := rfl

theorem rolloverStep_of_ne (now : ℤ) (dayKey : String) (s : ServerState)
    (h : s.memory.today.key ≠ dayKey) :
    rolloverStep now dayKey s =
      { s with
        memory :=
          ⟨freshDay dayKey, trimOldest 21 (s.memory.days ++ [s.memory.today])⟩
        lastEnergyTs := now
        energy := { s.energy with totals := ⟨0, 0, 0⟩ } } := by
  rw [rolloverStep, if_neg h]

theorem rolloverStep_of_eq (now : ℤ) (dayKey : String) (s : ServerState)
    (h : s.memory.today.key = dayKey) : rolloverStep now dayKey s = s := by
  rw [rolloverStep, if_pos h]

theorem energyStep_memory_days (pow : ℚ → ℚ → ℚ) (now : ℤ) (p : Payload)
    (s : ServerState) : (energyStep pow now p s).memory.days = s.memory.days := by
  simp [energyStep, integrateEnergy]

theorem energyStep_today_key (pow : ℚ → ℚ → ℚ) (now : ℤ) (p : Payload)
    (s : ServerState) :
    (energyStep pow now p s).memory.today.key = s.memory.today.key := by
  simp [energyStep, integrateEnergy]

theorem energyStep_today_brainRisk (pow : ℚ → ℚ → ℚ) (now : ℤ) (p : Payload)
    (s : ServerState) :
    (energyStep pow now p s).memory.today.brainRisk =
      s.memory.today.brainRisk := by
  simp [energyStep, integrateEnergy]

theorem energyStep_today_temperature (pow : ℚ → ℚ → ℚ) (now : ℤ) (p : Payload)
    (s : ServerState) :
    (energyStep pow now p s).memory.today.temperature =
      pushSeries 2000 s.memory.today.temperature now (jsNumber p.env.boxTempC) := by
  simp [energyStep, integrateEnergy]

theorem energyStep_today_light (pow : ℚ → ℚ → ℚ) (now : ℤ) (p : Payload)
    (s : ServerState) :
    (energyStep pow now p s).memory.today.light =
      pushSeries 2000 s.memory.today.light now (payloadLux p) := by
  simp [energyStep, integrateEnergy]

theorem energyStep_lastEnergyTs (pow : ℚ → ℚ → ℚ) (now : ℤ) (p : Payload)
    (s : ServerState) : (energyStep pow now p s).lastEnergyTs = now := by
  simp [energyStep, integrateEnergy]

theorem energyStep_today_totals (pow : ℚ → ℚ → ℚ) (now : ℤ) (p : Payload)
    (s : ServerState) :
    (energyStep pow now p s).memory.today.totals.energyInWh =
      s.memory.today.totals.energyInWh +
        estimateSolarInW pow (payloadLux p) *
          ((clampedDtMs now s.lastEnergyTs : ℚ) / 3600000) ∧
    (energyStep pow now p s).memory.today.totals.energyOutWh =
      s.memory.today.totals.energyOutWh +
        estimateLoadW (jsNumber p.fan.duty) *
          ((clampedDtMs now s.lastEnergyTs : ℚ) / 3600000) ∧
    (energyStep pow now p s).memory.today.totals.energyNetWh =
      (energyStep pow now p s).memory.today.totals.energyInWh -
        (energyStep pow now p s).memory.today.totals.energyOutWh := by
  refine ⟨?_, ?_, ?_⟩ <;> simp [energyStep, integrateEnergy, clampedDtMs]

theorem clampedDtMs_self (t : ℤ) : clampedDtMs t t = 0 := by
  simp [clampedDtMs]

theorem pushSeries_nil_length_le_one (t : ℤ) (v : Option ℚ) :
    (pushSeries 2000 [] t v).length ≤ 1 := by
  cases v <;> simp [pushSeries, trimOldest]

/-- C4: at an ingest whose computed day key differs from the stored one,
exactly the old `today` record is appended to `days`, `days` is capped at
21 by evicting the oldest records, `today` is replaced by a fresh record
under the new key whose totals end the ingest still zeroed (the integrator
baseline was reset to `now`, so the first step of the new day accumulates
nothing), and `lastEnergyTs` ends at `now`; at every other ingest `days`
and the day key are unchanged. -/
theorem applyIngest_day_rollover (pow : ℚ → ℚ → ℚ) (now : ℤ)
    (dayKey : String) (p : Payload) (s : ServerState) :
    (s.memory.today.key ≠ dayKey →
      (applyIngest pow now dayKey p s).memory.days =
        trimOldest 21 (s.memory.days ++ [s.memory.today]) ∧
      (applyIngest pow now dayKey p s).memory.days.length ≤ 21 ∧
      (applyIngest pow now dayKey p s).memory.today.key = dayKey ∧
      (applyIngest pow now dayKey p s).memory.today.totals = ⟨0, 0, 0⟩ ∧
      (applyIngest pow now dayKey p s).memory.today.brainRisk = [] ∧
      (applyIngest pow now dayKey p s).memory.today.temperature.length ≤ 1 ∧
      (applyIngest pow now dayKey p s).lastEnergyTs = now) ∧
    (s.memory.today.key = dayKey →
      (applyIngest pow now dayKey p s).memory.days = s.memory.days ∧
      (applyIngest pow now dayKey p s).memory.today.key = s.memory.today.key) := by
  set u := updateSticky now p { s with time := { s.time with now := now } } with hu_eq
  have hu : u.memory = s.memory := rfl
  set r := rolloverStep now dayKey u with hr_eq
  have happ : applyIngest pow now dayKey p s = energyStep pow now p r := rfl
  constructor
  · intro hne
    have hr : r =
        { u with
          memory :=
            ⟨freshDay dayKey, trimOldest 21 (u.memory.days ++ [u.memory.today])⟩
          lastEnergyTs := now
          energy := { u.energy with totals := ⟨0, 0, 0⟩ } } :=
      rolloverStep_of_ne now dayKey u (by rw [hu]; exact hne)
    obtain ⟨hIn, hOut, hNet⟩ := energyStep_today_totals pow now p r
    have h1 : r.memory.today.totals.energyInWh = 0 := by rw [hr]; rfl
    have h2 : r.memory.today.totals.energyOutWh = 0 := by rw [hr]; rfl
    have h3 : r.lastEnergyTs = now := by rw [hr]
    have hIn0 : (energyStep pow now p r).memory.today.totals.energyInWh = 0 := by
      rw [hIn, h1, h3, clampedDtMs_self]
      norm_num
    have hOut0 : (energyStep pow now p r).memory.today.totals.energyOutWh = 0 := by
      rw [hOut, h2, h3, clampedDtMs_self]
      norm_num
    have hNet0 : (energyStep pow now p r).memory.today.totals.energyNetWh = 0 := by
      rw [hNet, hIn0, hOut0]
      norm_num
    refine ⟨?_, ?_, ?_, ?_, ?_, ?_, ?_⟩
    · rw [happ, energyStep_memory_days pow now p r, hr]
      rfl
    · rw [happ, energyStep_memory_days pow now p r, hr]
      show (trimOldest 21 (u.memory.days ++ [u.memory.today])).length ≤ 21
      rw [trimOldest_eq_lastN, length_lastN]
      omega
    · rw [happ, energyStep_today_key pow now p r, hr]
      rfl
    · rw [happ]
      have e0 : (energyStep pow now p r).memory.today.totals =
          ⟨(energyStep pow now p r).memory.today.totals.energyInWh,
           (energyStep pow now p r).memory.today.totals.energyOutWh,
           (energyStep pow now p r).memory.today.totals.energyNetWh⟩ := rfl
      rw [e0, hIn0, hOut0, hNet0]
    · rw [happ, energyStep_today_brainRisk pow now p r, hr]
      rfl
    · rw [happ, energyStep_today_temperature pow now p r, hr]
      exact pushSeries_nil_length_le_one now _
    · rw [happ, energyStep_lastEnergyTs pow now p r]
  · intro heq
    have hr : r = u := rolloverStep_of_eq now dayKey u (by rw [hu]; exact heq)
    exact ⟨by rw [happ, energyStep_memory_days pow now p r, hr, hu],
      by rw [happ, energyStep_today_key pow now p r, hr, hu]⟩

/-- Witness for C4: a rollover ingest (stored key `2025-01-01`, computed
key `2025-01-02`) and a same-day ingest, both from the boot state. -/
theorem applyIngest_day_rollover_witness :
    ((applyIngest (fun b _ => b) 0 "2025-01-02" emptyPayload
        (initialState "2025-01-01" 0)).memory.days =
      trimOldest 21 ((initialState "2025-01-01" 0).memory.days ++
        [(initialState "2025-01-01" 0).memory.today]) ∧
    (applyIngest (fun b _ => b) 0 "2025-01-02" emptyPayload
        (initialState "2025-01-01" 0)).memory.days.length ≤ 21 ∧
    (applyIngest (fun b _ => b) 0 "2025-01-02" emptyPayload
        (initialState "2025-01-01" 0)).memory.today.key = "2025-01-02" ∧
    (applyIngest (fun b _ => b) 0 "2025-01-02" emptyPayload
        (initialState "2025-01-01" 0)).memory.today.totals = ⟨0, 0, 0⟩ ∧
    (applyIngest (fun b _ => b) 0 "2025-01-02" emptyPayload
        (initialState "2025-01-01" 0)).memory.today.brainRisk = [] ∧
    (applyIngest (fun b _ => b) 0 "2025-01-02" emptyPayload
        (initialState "2025-01-01" 0)).memory.today.temperature.length ≤ 1 ∧
    (applyIngest (fun b _ => b) 0 "2025-01-02" emptyPayload
        (initialState "2025-01-01" 0)).lastEnergyTs = 0) ∧
    ((applyIngest (fun b _ => b) 0 "2025-01-01" emptyPayload
        (initialState "2025-01-01" 0)).memory.days =
      (initialState "2025-01-01" 0).memory.days ∧
    (applyIngest (fun b _ => b) 0 "2025-01-01" emptyPayload
        (initialState "2025-01-01" 0)).memory.today.key =
      (initialState "2025-01-01" 0).memory.today.key) :=
  ⟨(applyIngest_day_rollover (fun b _ => b) 0 "2025-01-02" emptyPayload
      (initialState "2025-01-01" 0)).1 (by decide),
   (applyIngest_day_rollover (fun b _ => b) 0 "2025-01-01" emptyPayload
      (initialState "2025-01-01" 0)).2 rfl⟩

theorem rolloverStep_worldEnvironment (now : ℤ) (dayKey : String)
    (s : ServerState) :
    (rolloverStep now dayKey s).worldEnvironment = s.worldEnvironment := by
  rw [rolloverStep]
  split <;> rfl

theorem rolloverStep_device (now : ℤ) (dayKey : String) (s : ServerState) :
    (rolloverStep now dayKey s).device = s.device := by
  rw [rolloverStep]
  split <;> rfl

theorem energyStep_worldEnvironment (pow : ℚ → ℚ → ℚ) (now : ℤ) (p : Payload)
    (s : ServerState) :
    (energyStep pow now p s).worldEnvironment =
      { s.worldEnvironment with
        solarPotentialW := some (estimateSolarInW pow (payloadLux p)) } := by
  simp [energyStep, integrateEnergy]

theorem energyStep_device_sticky (pow : ℚ → ℚ → ℚ) (now : ℤ) (p : Payload)
    (s : ServerState) :
    (energyStep pow now p s).device.temperature = s.device.temperature ∧
    (energyStep pow now p s).device.humidity = s.device.humidity ∧
    (energyStep pow now p s).device.light = s.device.light ∧
    (energyStep pow now p s).device.fan = s.device.fan ∧
    (energyStep pow now p s).device.sensors = s.device.sensors := by
  refine ⟨?_, ?_, ?_, ?_, ?_⟩ <;> simp [energyStep, integrateEnergy]

theorem updateSticky_boxTempC_none (now : ℤ) (p : Payload) (s : ServerState)
    (h : jsNumber p.env.boxTempC = none) :
    (updateSticky now p s).worldEnvironment.boxTempC = s.worldEnvironment.boxTempC ∧
    (updateSticky now p s).worldEnvironment.indoorTempC = s.worldEnvironment.indoorTempC ∧
    (updateSticky now p s).device.temperature = s.device.temperature ∧
    (updateSticky now p s).device.sensors.dht22TempC = s.device.sensors.dht22TempC := by
  refine ⟨?_, ?_, ?_, ?_⟩ <;> simp [updateSticky, h]

theorem updateSticky_humPct_none (now : ℤ) (p : Payload) (s : ServerState)
    (h : jsNumber p.env.indoorHumPct = none) :
    (updateSticky now p s).worldEnvironment.indoorHumPct = s.worldEnvironment.indoorHumPct ∧
    (updateSticky now p s).device.humidity = s.device.humidity ∧
    (updateSticky now p s).device.sensors.dht22Humidity = s.device.sensors.dht22Humidity := by
  refine ⟨?_, ?_, ?_⟩ <;> simp [updateSticky, h]

theorem updateSticky_outTempC_none (now : ℤ) (p : Payload) (s : ServerState)
    (h : jsNumber p.env.outdoorTempC = none) :
    (updateSticky now p s).worldEnvironment.outdoorTempC = s.worldEnvironment.outdoorTempC ∧
    (updateSticky now p s).worldEnvironment.airTempC = s.worldEnvironment.airTempC ∧
    (updateSticky now p s).device.sensors.ds18b20TempC = s.device.sensors.ds18b20TempC := by
  refine ⟨?_, ?_, ?_⟩ <;> simp [updateSticky, h]

theorem updateSticky_lux_none (now : ℤ) (p : Payload) (s : ServerState)
    (h : payloadLux p = none) :
    (updateSticky now p s).worldEnvironment.light = s.worldEnvironment.light ∧
    (updateSticky now p s).worldEnvironment.lightLux = s.worldEnvironment.lightLux ∧
    (updateSticky now p s).worldEnvironment.lux = s.worldEnvironment.lux ∧
    (updateSticky now p s).device.light = s.device.light ∧
    (updateSticky now p s).device.sensors.bh1750Lux = s.device.sensors.bh1750Lux := by
  refine ⟨?_, ?_, ?_, ?_, ?_⟩ <;> simp [updateSticky, h]

theorem updateSticky_duty_none (now : ℤ) (p : Payload) (s : ServerState)
    (h : jsNumber p.fan.duty = none) :
    (updateSticky now p s).device.fan = s.device.fan := by
  simp [updateSticky, h]

/-- C8: environment, device and per-sensor numeric fields are sticky — an
ingest whose payload omits a field or supplies a value that does not parse
as a finite number leaves the previously stored value of that field
unchanged. -/
theorem applyIngest_sticky_fields (pow : ℚ → ℚ → ℚ) (now : ℤ)
    (dayKey : String) (p : Payload) (s : ServerState) :
    (jsNumber p.env.boxTempC = none →
      (applyIngest pow now dayKey p s).worldEnvironment.boxTempC =
        s.worldEnvironment.boxTempC ∧
      (applyIngest pow now dayKey p s).worldEnvironment.indoorTempC =
        s.worldEnvironment.indoorTempC ∧
      (applyIngest pow now dayKey p s).device.temperature =
        s.device.temperature ∧
      (applyIngest pow now dayKey p s).device.sensors.dht22TempC =
        s.device.sensors.dht22TempC) ∧
    (jsNumber p.env.indoorHumPct = none →
      (applyIngest pow now dayKey p s).worldEnvironment.indoorHumPct =
        s.worldEnvironment.indoorHumPct ∧
      (applyIngest pow now dayKey p s).device.humidity = s.device.humidity ∧
      (applyIngest pow now dayKey p s).device.sensors.dht22Humidity =
        s.device.sensors.dht22Humidity) ∧
    (jsNumber p.env.outdoorTempC = none →
      (applyIngest pow now dayKey p s).worldEnvironment.outdoorTempC =
        s.worldEnvironment.outdoorTempC ∧
      (applyIngest pow now dayKey p s).worldEnvironment.airTempC =
        s.worldEnvironment.airTempC ∧
      (applyIngest pow now dayKey p s).device.sensors.ds18b20TempC =
        s.device.sensors.ds18b20TempC) ∧
    (payloadLux p = none →
      (applyIngest pow now dayKey p s).worldEnvironment.light =
        s.worldEnvironment.light ∧
      (applyIngest pow now dayKey p s).worldEnvironment.lightLux =
        s.worldEnvironment.lightLux ∧
      (applyIngest pow now dayKey p s).worldEnvironment.lux =
        s.worldEnvironment.lux ∧
      (applyIngest pow now dayKey p s).device.light = s.device.light ∧
      (applyIngest pow now dayKey p s).device.sensors.bh1750Lux =
        s.device.sensors.bh1750Lux) ∧
    (jsNumber p.fan.duty = none →
      (applyIngest pow now dayKey p s).device.fan = s.device.fan) := by
  set sT := { s with time := { s.time with now := now } } with hsT_eq
  set u := updateSticky now p sT with hu_eq
  set r := rolloverStep now dayKey u with hr_eq
  have happ : applyIngest pow now dayKey p s = energyStep pow now p r := rfl
  have hrw : r.worldEnvironment = u.worldEnvironment := by
    rw [hr_eq]
    exact rolloverStep_worldEnvironment now dayKey u
  have hrd : r.device = u.device := by
    rw [hr_eq]
    exact rolloverStep_device now dayKey u
  have HWE : (applyIngest pow now dayKey p s).worldEnvironment =
      { u.worldEnvironment with
        solarPotentialW := some (estimateSolarInW pow (payloadLux p)) } := by
    rw [happ, energyStep_worldEnvironment, hrw]
  obtain ⟨HD1, HD2, HD3, HD4, HD5⟩ := energyStep_device_sticky pow now p r
  rw [← happ] at HD1 HD2 HD3 HD4 HD5
  rw [hrd] at HD1 HD2 HD3 HD4 HD5
  refine ⟨?_, ?_, ?_, ?_, ?_⟩ <;> intro h
  · obtain ⟨k1, k2, k3, k4⟩ := updateSticky_boxTempC_none now p sT h
    exact ⟨by rw [HWE]; exact k1, by rw [HWE]; exact k2,
      by rw [HD1]; exact k3, by rw [HD5]; exact k4⟩
  · obtain ⟨k1, k2, k3⟩ := updateSticky_humPct_none now p sT h
    exact ⟨by rw [HWE]; exact k1, by rw [HD2]; exact k2, by rw [HD5]; exact k3⟩
  · obtain ⟨k1, k2, k3⟩ := updateSticky_outTempC_none now p sT h
    exact ⟨by rw [HWE]; exact k1, by rw [HWE]; exact k2, by rw [HD5]; exact k3⟩
  · obtain ⟨k1, k2, k3, k4, k5⟩ := updateSticky_lux_none now p sT h
    exact ⟨by rw [HWE]; exact k1, by rw [HWE]; exact k2, by rw [HWE]; exact k3,
      by rw [HD3]; exact k4, by rw [HD5]; exact k5⟩
  · exact HD4.trans (updateSticky_duty_none now p sT h)

/-- Witness for C8: an ingest of the empty payload (every field absent)
from the boot state leaves every sticky field unchanged. -/
theorem applyIngest_sticky_fields_witness :
    jsNumber emptyPayload.env.boxTempC = none ∧
    jsNumber emptyPayload.env.indoorHumPct = none ∧
    jsNumber emptyPayload.env.outdoorTempC = none ∧
    payloadLux emptyPayload = none ∧
    jsNumber emptyPayload.fan.duty = none ∧
    ((applyIngest (fun b _ => b) 5 "2025-01-01" emptyPayload
        (initialState "2025-01-01" 0)).worldEnvironment.boxTempC =
      (initialState "2025-01-01" 0).worldEnvironment.boxTempC ∧
     (applyIngest (fun b _ => b) 5 "2025-01-01" emptyPayload
        (initialState "2025-01-01" 0)).worldEnvironment.indoorTempC =
      (initialState "2025-01-01" 0).worldEnvironment.indoorTempC ∧
     (applyIngest (fun b _ => b) 5 "2025-01-01" emptyPayload
        (initialState "2025-01-01" 0)).device.temperature =
      (initialState "2025-01-01" 0).device.temperature ∧
     (applyIngest (fun b _ => b) 5 "2025-01-01" emptyPayload
        (initialState "2025-01-01" 0)).device.sensors.dht22TempC =
      (initialState "2025-01-01" 0).device.sensors.dht22TempC) ∧
    ((applyIngest (fun b _ => b) 5 "2025-01-01" emptyPayload
        (initialState "2025-01-01" 0)).worldEnvironment.indoorHumPct =
      (initialState "2025-01-01" 0).worldEnvironment.indoorHumPct ∧
     (applyIngest (fun b _ => b) 5 "2025-01-01" emptyPayload
        (initialState "2025-01-01" 0)).device.humidity =
      (initialState "2025-01-01" 0).device.humidity ∧
     (applyIngest (fun b _ => b) 5 "2025-01-01" emptyPayload
        (initialState "2025-01-01" 0)).device.sensors.dht22Humidity =
      (initialState "2025-01-01" 0).device.sensors.dht22Humidity) ∧
    ((applyIngest (fun b _ => b) 5 "2025-01-01" emptyPayload
        (initialState "2025-01-01" 0)).worldEnvironment.outdoorTempC =
      (initialState "2025-01-01" 0).worldEnvironment.outdoorTempC ∧
     (applyIngest (fun b _ => b) 5 "2025-01-01" emptyPayload
        (initialState "2025-01-01" 0)).worldEnvironment.airTempC =
      (initialState "2025-01-01" 0).worldEnvironment.airTempC ∧
     (applyIngest (fun b _ => b) 5 "2025-01-01" emptyPayload
        (initialState "2025-01-01" 0)).device.sensors.ds18b20TempC =
      (initialState "2025-01-01" 0).device.sensors.ds18b20TempC) ∧
    ((applyIngest (fun b _ => b) 5 "2025-01-01" emptyPayload
        (initialState "2025-01-01" 0)).worldEnvironment.light =
      (initialState "2025-01-01" 0).worldEnvironment.light ∧
     (applyIngest (fun b _ => b) 5 "2025-01-01" emptyPayload
        (initialState "2025-01-01" 0)).worldEnvironment.lightLux =
      (initialState "2025-01-01" 0).worldEnvironment.lightLux ∧
     (applyIngest (fun b _ => b) 5 "2025-01-01" emptyPayload
        (initialState "2025-01-01" 0)).worldEnvironment.lux =
      (initialState "2025-01-01" 0).worldEnvironment.lux ∧
     (applyIngest (fun b _ => b) 5 "2025-01-01" emptyPayload
        (initialState "2025-01-01" 0)).device.light =
      (initialState "2025-01-01" 0).device.light ∧
     (applyIngest (fun b _ => b) 5 "2025-01-01" emptyPayload
        (initialState "2025-01-01" 0)).device.sensors.bh1750Lux =
      (initialState "2025-01-01" 0).device.sensors.bh1750Lux) ∧
    (applyIngest (fun b _ => b) 5 "2025-01-01" emptyPayload
        (initialState "2025-01-01" 0)).device.fan =
      (initialState "2025-01-01" 0).device.fan :=
  ⟨rfl, rfl, rfl, rfl, rfl,
   (applyIngest_sticky_fields (fun b _ => b) 5 "2025-01-01" emptyPayload
      (initialState "2025-01-01" 0)).1 rfl,
   (applyIngest_sticky_fields (fun b _ => b) 5 "2025-01-01" emptyPayload
      (initialState "2025-01-01" 0)).2.1 rfl,
   (applyIngest_sticky_fields (fun b _ => b) 5 "2025-01-01" emptyPayload
      (initialState "2025-01-01" 0)).2.2.1 rfl,
   (applyIngest_sticky_fields (fun b _ => b) 5 "2025-01-01" emptyPayload
      (initialState "2025-01-01" 0)).2.2.2.1 rfl,
   (applyIngest_sticky_fields (fun b _ => b) 5 "2025-01-01" emptyPayload
      (initialState "2025-01-01" 0)).2.2.2.2 rfl⟩

/-- The scenario payload `{ env: { lux: 0 } }`: illuminance 0, no other
power-relevant input. -/
def luxZeroPayload : Payload := ⟨{ emptyEnv with lux := .fin 0 }, ⟨.absent⟩⟩

theorem estimateSolarInW_zero (pow : ℚ → ℚ → ℚ) :
    estimateSolarInW pow (some 0) = 0 := by
  norm_num [estimateSolarInW, VIRTUAL_ENERGY]

theorem classifyPower_zero_baseline :
    classifyPower 0 (37/100) = ⟨"DISCHARGING", "BATT_TO_LOAD"⟩ := by
  norm_num [classifyPower]

/-- One ingest of `{ lux: 0 }` on a same-day state: the shared general
fact behind the C2 settlement. -/
theorem applyIngest_luxZero_aux (pow : ℚ → ℚ → ℚ) (now : ℤ) (dayKey : String)
    (s : ServerState) (hkey : s.memory.today.key = dayKey) :
    (applyIngest pow now dayKey luxZeroPayload s).energy.states.power_state =
      "DISCHARGING" ∧
    (applyIngest pow now dayKey luxZeroPayload s).energy.states.power_path_state =
      "BATT_TO_LOAD" ∧
    (applyIngest pow now dayKey luxZeroPayload s).memory.today.totals.energyInWh =
      s.memory.today.totals.energyInWh ∧
    (applyIngest pow now dayKey luxZeroPayload s).memory.today.totals.energyOutWh =
      s.memory.today.totals.energyOutWh +
        37/100 * ((clampedDtMs now s.lastEnergyTs : ℚ) / 3600000) ∧
    (applyIngest pow now dayKey luxZeroPayload s).memory.today.totals.energyNetWh =
      (applyIngest pow now dayKey luxZeroPayload s).memory.today.totals.energyInWh -
        (applyIngest pow now dayKey luxZeroPayload s).memory.today.totals.energyOutWh := by
  set sT := { s with time := { s.time with now := now } } with hsT_eq
  set u := updateSticky now luxZeroPayload sT with hu_eq
  set r := rolloverStep now dayKey u with hr_eq
  have happ : applyIngest pow now dayKey luxZeroPayload s =
      energyStep pow now luxZeroPayload r := rfl
  have hu : u.memory = s.memory := rfl
  have hr : r = u := rolloverStep_of_eq now dayKey u (by rw [hu]; exact hkey)
  have hlux : payloadLux luxZeroPayload = some 0 := rfl
  have hpin : estimateSolarInW pow (payloadLux luxZeroPayload) = 0 := by
    rw [hlux]
    exact estimateSolarInW_zero pow
  have hpout : estimateLoadW (jsNumber luxZeroPayload.fan.duty) = 37/100 :=
    estimateLoadW_none
  obtain ⟨hIn, hOut, hNet⟩ := energyStep_today_totals pow now luxZeroPayload r
  rw [← happ] at hIn hOut hNet
  rw [hr] at hIn hOut
  have hum : u.memory.today.totals.energyInWh = s.memory.today.totals.energyInWh := by
    rw [hu]
  have hum2 : u.memory.today.totals.energyOutWh = s.memory.today.totals.energyOutWh := by
    rw [hu]
  have hul : u.lastEnergyTs = s.lastEnergyTs := rfl
  rw [hum, hul, hpin] at hIn
  rw [hum2, hul, hpout] at hOut
  refine ⟨?_, ?_, ?_, ?_, hNet⟩
  · rw [applyIngest_states, hpin, hpout, classifyPower_zero_baseline]
  · rw [applyIngest_states, hpin, hpout, classifyPower_zero_baseline]
  · rw [hIn]
    norm_num
  · exact hOut

/-- C2 counterexample: a single ingest of `{ lux: 0 }` one hour after the
integrator baseline yields `power_state = "DISCHARGING"` (not `IDLE`),
`power_path_state = "BATT_TO_LOAD"` (not `UNKNOWN`), and grows
`energyOutWh` from 0 to `0.37 W * 60 s = 37/6000 Wh`. -/
theorem applyIngest_luxZero_counterexample :
    (applyIngest (fun b _ => b) 3600000 "2025-01-01" luxZeroPayload
        (initialState "2025-01-01" 0)).energy.states.power_state =
      "DISCHARGING" ∧
    (applyIngest (fun b _ => b) 3600000 "2025-01-01" luxZeroPayload
        (initialState "2025-01-01" 0)).energy.states.power_state ≠ "IDLE" ∧
    (applyIngest (fun b _ => b) 3600000 "2025-01-01" luxZeroPayload
        (initialState "2025-01-01" 0)).energy.states.power_path_state =
      "BATT_TO_LOAD" ∧
    (applyIngest (fun b _ => b) 3600000 "2025-01-01" luxZeroPayload
        (initialState "2025-01-01" 0)).energy.states.power_path_state ≠
      "UNKNOWN" ∧
    (applyIngest (fun b _ => b) 3600000 "2025-01-01" luxZeroPayload
        (initialState "2025-01-01" 0)).memory.today.totals.energyOutWh =
      37/6000 ∧
    (initialState "2025-01-01" 0).memory.today.totals.energyOutWh = 0 := by
  obtain ⟨h1, h2, h3, h4, h5⟩ :=
    applyIngest_luxZero_aux (fun b _ => b) 3600000 "2025-01-01"
      (initialState "2025-01-01" 0) rfl
  refine ⟨h1, by rw [h1]; decide, h2, by rw [h2]; decide, ?_, rfl⟩
  rw [h4]
  have hz : (initialState "2025-01-01" 0).memory.today.totals.energyOutWh = 0 := rfl
  have hts : (initialState "2025-01-01" 0).lastEnergyTs = 0 := rfl
  rw [hz, hts]
  norm_num [clampedDtMs, min_def, max_def]

/-- C2 (amended): repeated ingests of `{ lux: 0 }` do not keep the system
at `IDLE`/`UNKNOWN`: because the modelled base load is always 0.37 W, each
such ingest sets `power_state = "DISCHARGING"` and
`power_path_state = "BATT_TO_LOAD"`; `energyInWh` is unchanged, while
`energyOutWh` grows by `0.37 W` times the clamped elapsed time (zero only
when no time elapses), with `energyNetWh = energyInWh - energyOutWh`. -/
theorem applyIngest_luxZero_discharging (pow : ℚ → ℚ → ℚ) (now : ℤ)
    (dayKey : String) (s : ServerState) (hkey : s.memory.today.key = dayKey) :
    (applyIngest pow now dayKey luxZeroPayload s).energy.states.power_state =
      "DISCHARGING" ∧
    (applyIngest pow now dayKey luxZeroPayload s).energy.states.power_path_state =
      "BATT_TO_LOAD" ∧
    (applyIngest pow now dayKey luxZeroPayload s).memory.today.totals.energyInWh =
      s.memory.today.totals.energyInWh ∧
    (applyIngest pow now dayKey luxZeroPayload s).memory.today.totals.energyOutWh =
      s.memory.today.totals.energyOutWh +
        37/100 * ((clampedDtMs now s.lastEnergyTs : ℚ) / 3600000) ∧
    (applyIngest pow now dayKey luxZeroPayload s).memory.today.totals.energyNetWh =
      (applyIngest pow now dayKey luxZeroPayload s).memory.today.totals.energyInWh -
        (applyIngest pow now dayKey luxZeroPayload s).memory.today.totals.energyOutWh :=
  applyIngest_luxZero_aux pow now dayKey s hkey

/-- Witness for C2 (amended) at a concrete same-day ingest. -/
theorem applyIngest_luxZero_discharging_witness :
    (initialState "2025-01-01" 0).memory.today.key = "2025-01-01" ∧
    ((applyIngest (fun b _ => b) 60000 "2025-01-01" luxZeroPayload
        (initialState "2025-01-01" 0)).energy.states.power_state =
      "DISCHARGING" ∧
    (applyIngest (fun b _ => b) 60000 "2025-01-01" luxZeroPayload
        (initialState "2025-01-01" 0)).energy.states.power_path_state =
      "BATT_TO_LOAD" ∧
    (applyIngest (fun b _ => b) 60000 "2025-01-01" luxZeroPayload
        (initialState "2025-01-01" 0)).memory.today.totals.energyInWh =
      (initialState "2025-01-01" 0).memory.today.totals.energyInWh ∧
    (applyIngest (fun b _ => b) 60000 "2025-01-01" luxZeroPayload
        (initialState "2025-01-01" 0)).memory.today.totals.energyOutWh =
      (initialState "2025-01-01" 0).memory.today.totals.energyOutWh +
        37/100 * ((clampedDtMs 60000 (initialState "2025-01-01" 0).lastEnergyTs : ℚ) /
          3600000) ∧
    (applyIngest (fun b _ => b) 60000 "2025-01-01" luxZeroPayload
        (initialState "2025-01-01" 0)).memory.today.totals.energyNetWh =
      (applyIngest (fun b _ => b) 60000 "2025-01-01" luxZeroPayload
          (initialState "2025-01-01" 0)).memory.today.totals.energyInWh -
        (applyIngest (fun b _ => b) 60000 "2025-01-01" luxZeroPayload
            (initialState "2025-01-01" 0)).memory.today.totals.energyOutWh) :=
  ⟨rfl, applyIngest_luxZero_discharging (fun b _ => b) 60000 "2025-01-01"
    (initialState "2025-01-01" 0) rfl⟩

/-- C9 (amended): only the persistence-variant route rejects non-object
payloads — with HTTP 400 and the state returned untouched (no audit event
exists in that variant); the `server.js` route instead coerces a non-object
body to the empty object and processes it as a normal, successful ingest. -/
theorem ingestRoute_nonObject (byteLen : Payload → ℕ) (now : ℤ)
    (st : PersistState) (pow : ℚ → ℚ → ℚ) (dayKey : String) (s : ServerState) :
    persistIngestRoute byteLen now .nonObj st = (⟨400, false⟩, st) ∧
    serverJsIngestRoute pow now dayKey .nonObj s =
      serverJsIngestRoute pow now dayKey (.obj emptyPayload) s ∧
    (serverJsIngestRoute pow now dayKey .nonObj s).1 = ⟨200, true⟩ :=
  ⟨rfl, rfl, rfl⟩

/-- C9 counterexample: in `server.js`, a non-object request body is not
rejected — the route answers `200 ok:true` and the ingest mutates the
snapshot (`power_state` flips from `IDLE` to `DISCHARGING`, `energyOutWh`
grows from 0 to 37/6000 Wh). -/
theorem serverJsIngestRoute_nonObject_counterexample :
    (serverJsIngestRoute (fun b _ => b) 3600000 "2025-01-01" .nonObj
        (initialState "2025-01-01" 0)).1 = ⟨200, true⟩ ∧
    (serverJsIngestRoute (fun b _ => b) 3600000 "2025-01-01" .nonObj
        (initialState "2025-01-01" 0)).1.status ≠ 400 ∧
    (serverJsIngestRoute (fun b _ => b) 3600000 "2025-01-01" .nonObj
        (initialState "2025-01-01" 0)).2.energy.states.power_state =
      "DISCHARGING" ∧
    (initialState "2025-01-01" 0).energy.states.power_state = "IDLE" ∧
    (serverJsIngestRoute (fun b _ => b) 3600000 "2025-01-01" .nonObj
        (initialState "2025-01-01" 0)).2.memory.today.totals.energyOutWh =
      37/6000 ∧
    (initialState "2025-01-01" 0).memory.today.totals.energyOutWh = 0 := by
  have estates : (serverJsIngestRoute (fun b _ => b) 3600000 "2025-01-01" .nonObj
      (initialState "2025-01-01" 0)).2.energy.states =
      (applyIngest (fun b _ => b) 3600000 "2025-01-01" emptyPayload
        (initialState "2025-01-01" 0)).energy.states := rfl
  have etotals : (serverJsIngestRoute (fun b _ => b) 3600000 "2025-01-01" .nonObj
      (initialState "2025-01-01" 0)).2.memory.today.totals =
      (applyIngest (fun b _ => b) 3600000 "2025-01-01" emptyPayload
        (initialState "2025-01-01" 0)).memory.today.totals := rfl
  have hpin : estimateSolarInW (fun b _ => b) (payloadLux emptyPayload) = 0 := rfl
  have hpout : estimateLoadW (jsNumber emptyPayload.fan.duty) = 37/100 :=
    estimateLoadW_none
  have hstates : (applyIngest (fun b _ => b) 3600000 "2025-01-01" emptyPayload
      (initialState "2025-01-01" 0)).energy.states =
      ⟨"DISCHARGING", "BATT_TO_LOAD"⟩ := by
    rw [applyIngest_states, hpin, hpout, classifyPower_zero_baseline]
  have hout : (applyIngest (fun b _ => b) 3600000 "2025-01-01" emptyPayload
      (initialState "2025-01-01" 0)).memory.today.totals.energyOutWh =
      37/6000 := by
    set s0 := initialState "2025-01-01" 0 with hs0_eq
    set sT := { s0 with time := { s0.time with now := 3600000 } } with hsT_eq
    set u := updateSticky 3600000 emptyPayload sT with hu_eq
    set r := rolloverStep 3600000 "2025-01-01" u with hr_eq
    have happ : applyIngest (fun b _ => b) 3600000 "2025-01-01" emptyPayload s0 =
        energyStep (fun b _ => b) 3600000 emptyPayload r := rfl
    have hu : u.memory = s0.memory := rfl
    have hr : r = u := rolloverStep_of_eq 3600000 "2025-01-01" u (by rw [hu]; rfl)
    obtain ⟨-, hOut, -⟩ :=
      energyStep_today_totals (fun b _ => b) 3600000 emptyPayload r
    rw [← happ] at hOut
    rw [hr] at hOut
    have hum : u.memory.today.totals.energyOutWh = 0 := rfl
    have hul : u.lastEnergyTs = 0 := rfl
    rw [hum, hul, hpout] at hOut
    rw [hOut]
    norm_num [clampedDtMs, min_def, max_def]
  exact ⟨rfl, by decide, by rw [estates, hstates], rfl,
    by rw [etotals]; exact hout, rfl⟩
